import Mathlib

/-!
Shallow embedding of the multi-provider AI generation gateway of the
CareerGenie repository (source file: the module defining `AI_PROVIDERS`,
`MODELS`, `AIProvider`, `SmartAIProvider`, `createAI`, `createSmartAI`,
`generateText`).

Modelling conventions:
* JavaScript numbers are modelled as `Rat` (temperature) and `Nat`
  (token counts); the `x || d` defaulting idiom on numbers is modelled by
  `jsOrRat` / `jsOrNat` (`0` is falsy in JavaScript, so a supplied `0` is
  replaced by the default, exactly as `||` does).
* The outside world (environment variables / lazily initialized SDK
  clients, and each remote HTTP endpoint) is an explicit `Env` record.
  The boolean fields model whether the corresponding API key is present
  (and hence whether the module-level client singleton is non-null); the
  function fields are oracles giving, for the exact request record an
  adapter sends, the outcome of the remote call.
* A remote call through `fetch` can (a) raise before a response arrives or
  while decoding/extracting the JSON body (`FetchOutcome.thrown`, carrying
  the raised error's message), (b) return a non-2xx response
  (`FetchOutcome.notOk`, carrying status and statusText), or (c) succeed
  with the extracted payload (`FetchOutcome.ok`).  The SDK-based Gemini and
  Groq calls either return the extracted text or raise, modelled as
  `Except String String`.
* Exceptions are modelled by `Except String`, carrying the error message.
-/

/-- The provider identity enumeration, from the `AI_PROVIDERS` constant. -/
inductive ProviderId where
  | gemini
  | groq
  | huggingface
  | ollama
  | together
deriving DecidableEq, Repr

/-- The string tag of each provider, i.e. the value stored in
`AI_PROVIDERS` and carried as `this.provider` by an `AIProvider`. -/
def providerName : ProviderId → String
  | .gemini => "gemini"
  | .groq => "groq"
  | .huggingface => "huggingface"
  | .ollama => "ollama"
  | .together => "together"

/-- The inverse direction: which `ProviderId`, if any, a provider-name
string denotes as an OWN key of the `MODELS` object literal.  `none` only
says the string is no own key; a JavaScript bracket read on `MODELS` also
reaches the members `MODELS` inherits from `Object.prototype`, which
`modelsGet` below adds on top of this function. -/
def parseProvider : String → Option ProviderId
  | "gemini" => some .gemini
  | "groq" => some .groq
  | "huggingface" => some .huggingface
  | "ollama" => some .ollama
  | "together" => some .together
  | _ => none

/-- The static `MODELS` alias table: OWN properties of each sub-object
literal, as a lookup from provider identity and alias string to the
concrete model name, `none` when the alias is not an own key of that
provider's sub-object.  A JavaScript bracket read additionally reaches
the sub-object's inherited `Object.prototype` members; that prototype
chain is added in `subObjectGet` below. -/
def lookupModel : ProviderId → String → Option String
  | .gemini, "default" => some "gemini-1.5-flash"
  | .gemini, "pro" => some "gemini-1.5-pro"
  | .gemini, "flash" => some "gemini-1.5-flash"
  | .gemini, "exp" => some "gemini-2.0-flash-exp"
  | .groq, "default" => some "llama-3.3-70b-versatile"
  | .groq, "fast" => some "llama-3.1-8b-instant"
  | .groq, "alternative" => some "mixtral-8x7b-32768"
  | .groq, "specdec" => some "llama-3.3-70b-specdec"
  | .huggingface, "default" => some "mistralai/Mistral-7B-Instruct-v0.2"
  | .huggingface, "alternative" => some "meta-llama/Llama-2-7b-chat-hf"
  | .ollama, "default" => some "llama3.2"
  | .ollama, "fast" => some "phi3"
  | .ollama, "alternative" => some "mistral"
  | .together, "default" => some "meta-llama/Meta-Llama-3.1-70B-Instruct-Turbo"
  | .together, "fast" => some "meta-llama/Meta-Llama-3.1-8B-Instruct-Turbo"
  | _, _ => none

/-- The `default` entry of each provider's `MODELS` sub-object. -/
def defaultModel : ProviderId → String
  | .gemini => "gemini-1.5-flash"
  | .groq => "llama-3.3-70b-versatile"
  | .huggingface => "mistralai/Mistral-7B-Instruct-v0.2"
  | .ollama => "llama3.2"
  | .together => "meta-llama/Meta-Llama-3.1-70B-Instruct-Turbo"

/-- Model-alias resolution of the `AIProvider` constructor,
`MODELS[provider][model] || MODELS[provider].default`, RESTRICTED to
alias strings that are not inherited `Object.prototype` property names:
for those, the bracket read yields an own table value or `undefined`, so
the `||` fires exactly when the alias is not an own key (every table
value being a non-empty, truthy string).  The full resolution, covering
aliases such as `toString` that reach an inherited truthy member instead
of falling back, is `resolveModelJS` below.  The chain constructor only
ever resolves the alias `default`, which this restriction covers. -/
def resolveModel (p : ProviderId) (aliasName : String) : String :=
  match lookupModel p aliasName with
  | some m => m
  | none => defaultModel p

/-- The state of a constructed `AIProvider` instance: the provider tag and
the resolved concrete model name. -/
structure AIProviderState where
  provider : ProviderId
  model : String
deriving DecidableEq, Repr

/-- The `AIProvider` constructor, RESTRICTED to provider-name strings
that are not inherited `Object.prototype` property names: for these,
`MODELS[provider]` is an own sub-object or `undefined`, so construction
either resolves the model from the table or raises the `TypeError` of the
property read on `undefined` (the exact `TypeError` message text is not
modelled, only that construction raises).  The full constructor, which
also covers names such as `toString` that reach an inherited member and
make construction succeed with an `undefined` model, is `mkAIProviderJS`
below; on non-prototype names the two agree (`mkAIProviderJS_agrees`). -/
def mkAIProvider (name : String) (aliasName : String) : Except String AIProviderState :=
  match parseProvider name with
  | some p => .ok { provider := p, model := resolveModel p aliasName }
  | none => .error ("TypeError: MODELS has no entry for provider " ++ name)

/-- Construction with the constructor's default alias argument
`model = 'default'`. -/
def mkAIProviderNoAlias (name : String) : Except String AIProviderState :=
  mkAIProvider name "default"

/-- The options bag of a generation request: the two recognized fields,
each possibly absent. -/
structure GenOptions where
  temperature : Option Rat
  maxTokens : Option Nat
deriving DecidableEq, Repr

/-- The empty options bag, the default `options = {}`. -/
def emptyOptions : GenOptions := { temperature := none, maxTokens := none }

/-- JavaScript `x || d` on an optional number: absent or `0` (falsy)
yields the default. -/
def jsOrRat (x : Option Rat) (d : Rat) : Rat :=
  match x with
  | some v => if v = 0 then d else v
  | none => d

/-- JavaScript `x || d` on an optional integer: absent or `0` (falsy)
yields the default. -/
def jsOrNat (x : Option Nat) (d : Nat) : Nat :=
  match x with
  | some v => if v = 0 then d else v
  | none => d

/-- A normalized successful generation: the `{ text, provider, model }`
record every adapter returns. -/
structure GenResult where
  text : String
  provider : ProviderId
  model : String
deriving DecidableEq, Repr

/-- The request the Gemini adapter issues (`getGenerativeModel` model name
and `generationConfig`, plus the prompt passed to `generateContent`). -/
structure GeminiRequest where
  model : String
  temperature : Rat
  maxOutputTokens : Nat
  prompt : String
deriving DecidableEq, Repr

/-- The request the Groq adapter issues
(`chat.completions.create` arguments). -/
structure GroqRequest where
  model : String
  content : String
  temperature : Rat
  max_tokens : Nat
deriving DecidableEq, Repr

/-- The request body the HuggingFace adapter posts
(model in URL, `inputs` and `parameters` in the body). -/
structure HFRequest where
  model : String
  inputs : String
  max_new_tokens : Nat
  temperature : Rat
deriving DecidableEq, Repr

/-- The request body the Ollama adapter posts.  Its `options` object
carries ONLY a temperature; no token cap is sent at all. -/
structure OllamaRequest where
  model : String
  prompt : String
  stream : Bool
  temperature : Rat
deriving DecidableEq, Repr

/-- The request body the Together adapter posts. -/
structure TogetherRequest where
  model : String
  content : String
  temperature : Rat
  max_tokens : Nat
deriving DecidableEq, Repr

/-- Outcome of a `fetch`-based remote call, from the adapter's point of
view: the call (or the subsequent JSON decoding / field extraction) raised
with some message, or the response was non-2xx (`!response.ok`), or the
payload of interest was extracted. -/
inductive FetchOutcome (α : Type) where
  | thrown (msg : String)
  | notOk (status : Nat) (statusText : String)
  | ok (body : α)
deriving DecidableEq, Repr

/-- The process environment and remote world.  Booleans: whether each
API key is set, i.e. whether `initializeClients` produced the
corresponding non-null client / the adapter's key check passes.  Ollama
needs no credential.  Function fields give the remote outcome for the
exact request an adapter sends; for HuggingFace the extracted payload is
`data[0].generated_text`, for Ollama it is `data.response`, for Together
it is `data.choices[0].message.content`. -/
structure Env where
  geminiClient : Bool
  groqClient : Bool
  hfKey : Bool
  togetherKey : Bool
  geminiRemote : GeminiRequest → Except String String
  groqRemote : GroqRequest → Except String String
  hfRemote : HFRequest → FetchOutcome String
  ollamaRemote : OllamaRequest → FetchOutcome String
  togetherRemote : TogetherRequest → FetchOutcome String

/-- The default temperature, used by every adapter. -/
def defaultTemperature : Rat := (7 : Rat) / 10

/-- The request `generateGemini` builds from its state, prompt and
options: `temperature: options.temperature || 0.7`,
`maxOutputTokens: options.maxTokens || 1024`. -/
def geminiRequestOf (st : AIProviderState) (prompt : String) (opts : GenOptions) : GeminiRequest :=
  { model := st.model
    temperature := jsOrRat opts.temperature defaultTemperature
    maxOutputTokens := jsOrNat opts.maxTokens 1024
    prompt := prompt }

/-- The request `generateGroq` builds:
`temperature: options.temperature || 0.7`,
`max_tokens: options.maxTokens || 1024`. -/
def groqRequestOf (st : AIProviderState) (prompt : String) (opts : GenOptions) : GroqRequest :=
  { model := st.model
    content := prompt
    temperature := jsOrRat opts.temperature defaultTemperature
    max_tokens := jsOrNat opts.maxTokens 1024 }

/-- The request `generateHuggingFace` builds.  Note the source defaults
`max_new_tokens` to 500 here, not 1024:
`max_new_tokens: options.maxTokens || 500`,
`temperature: options.temperature || 0.7`. -/
def hfRequestOf (st : AIProviderState) (prompt : String) (opts : GenOptions) : HFRequest :=
  { model := st.model
    inputs := prompt
    max_new_tokens := jsOrNat opts.maxTokens 500
    temperature := jsOrRat opts.temperature defaultTemperature }

/-- The request `generateOllama` builds: `stream: false`, and an
`options` object containing only `temperature: options.temperature || 0.7`
(the caller's `maxTokens` is ignored entirely). -/
def ollamaRequestOf (st : AIProviderState) (prompt : String) (opts : GenOptions) : OllamaRequest :=
  { model := st.model
    prompt := prompt
    stream := false
    temperature := jsOrRat opts.temperature defaultTemperature }

/-- The request `generateTogether` builds:
`temperature: options.temperature || 0.7`,
`max_tokens: options.maxTokens || 1024`. -/
def togetherRequestOf (st : AIProviderState) (prompt : String) (opts : GenOptions) : TogetherRequest :=
  { model := st.model
    content := prompt
    temperature := jsOrRat opts.temperature defaultTemperature
    max_tokens := jsOrNat opts.maxTokens 1024 }

/-- Whitespace test used by trimming. -/
def isWS (c : Char) : Bool := c.isWhitespace

/-- JavaScript `String.prototype.trim` on a character list: strip leading
and trailing whitespace. -/
def trimList (l : List Char) : List Char :=
  ((l.dropWhile isWS).reverse.dropWhile isWS).reverse

/-- JavaScript `String.prototype.trim`. -/
def trimString (s : String) : String := String.mk (trimList s.data)

/-- Whether `pat` is a prefix of `s`, as a boolean on character lists. -/
def isPre : List Char → List Char → Bool
  | [], _ => true
  | _ :: _, [] => false
  | a :: as, b :: bs => a == b && isPre as bs

/-- JavaScript `s.replace(pat, '')` for a plain string pattern: delete the
first occurrence of `pat` from `s` (leave `s` unchanged when `pat` does
not occur; an empty `pat` matches at position 0 and deletes nothing). -/
def replaceFirst (pat : List Char) : List Char → List Char
  | [] => []
  | c :: rest =>
    if isPre pat (c :: rest) then (c :: rest).drop pat.length
    else c :: replaceFirst pat rest

/-- JavaScript `s.replace(pat, '')` on `String`. -/
def replaceFirstStr (pat s : String) : String :=
  String.mk (replaceFirst pat.data s.data)

/-- The `generateGemini` adapter: fail fast when the lazily initialized
client is null (`GEMINI_API_KEY not set`); otherwise issue the SDK call
and either return the normalized result or rewrap the raised message as
`Gemini error: <message>`. -/
def generateGemini (env : Env) (st : AIProviderState) (prompt : String) (opts : GenOptions) :
    Except String GenResult :=
  if env.geminiClient = false then .error "GEMINI_API_KEY not set"
  else
    match env.geminiRemote (geminiRequestOf st prompt opts) with
    | .ok t => .ok { text := t, provider := .gemini, model := st.model }
    | .error m => .error ("Gemini error: " ++ m)

/-- The `generateGroq` adapter: fail fast when the client is null
(`GROQ_API_KEY not set`); otherwise issue the SDK call and either return
the normalized result (`completion.choices[0].message.content`) or rewrap
the raised message as `Groq error: <message>`. -/
def generateGroq (env : Env) (st : AIProviderState) (prompt : String) (opts : GenOptions) :
    Except String GenResult :=
  if env.groqClient = false then .error "GROQ_API_KEY not set"
  else
    match env.groqRemote (groqRequestOf st prompt opts) with
    | .ok t => .ok { text := t, provider := .groq, model := st.model }
    | .error m => .error ("Groq error: " ++ m)

/-- The `generateHuggingFace` adapter: fail fast without the key; on a
non-2xx response raise `HTTP <status>: <statusText>` inside the try, so
the surfaced message is `HuggingFace error: HTTP <status>: <statusText>`;
on success normalize `data[0].generated_text` by deleting the first
occurrence of the prompt (`.replace(prompt, '')`) and trimming. -/
def generateHuggingFace (env : Env) (st : AIProviderState) (prompt : String) (opts : GenOptions) :
    Except String GenResult :=
  if env.hfKey = false then .error "HUGGINGFACE_API_KEY not set"
  else
    match env.hfRemote (hfRequestOf st prompt opts) with
    | .thrown m => .error ("HuggingFace error: " ++ m)
    | .notOk status statusText =>
        .error ("HuggingFace error: HTTP " ++ toString status ++ ": " ++ statusText)
    | .ok generatedText =>
        .ok { text := trimString (replaceFirstStr prompt generatedText)
              provider := .huggingface
              model := st.model }

/-- The `generateOllama` adapter: no credential check.  A non-2xx
response raises `Ollama not running or model not found` inside the try;
every raised message is rewrapped as
`Ollama error: <message>. Make sure Ollama is running.`; on success the
text is `data.response` verbatim. -/
def generateOllama (env : Env) (st : AIProviderState) (prompt : String) (opts : GenOptions) :
    Except String GenResult :=
  match env.ollamaRemote (ollamaRequestOf st prompt opts) with
  | .thrown m => .error ("Ollama error: " ++ m ++ ". Make sure Ollama is running.")
  | .notOk _ _ =>
      .error "Ollama error: Ollama not running or model not found. Make sure Ollama is running."
  | .ok r => .ok { text := r, provider := .ollama, model := st.model }

/-- The `generateTogether` adapter: fail fast without the key; a non-2xx
response raises `HTTP <status>` (no statusText) inside the try, surfaced
as `Together AI error: HTTP <status>`; success text is
`data.choices[0].message.content`. -/
def generateTogether (env : Env) (st : AIProviderState) (prompt : String) (opts : GenOptions) :
    Except String GenResult :=
  if env.togetherKey = false then .error "TOGETHER_API_KEY not set"
  else
    match env.togetherRemote (togetherRequestOf st prompt opts) with
    | .thrown m => .error ("Together AI error: " ++ m)
    | .notOk status _ => .error ("Together AI error: HTTP " ++ toString status)
    | .ok t => .ok { text := t, provider := .together, model := st.model }

/-- The dispatch of `AIProvider.generate`: the switch on `this.provider`.
The `default: throw Unknown provider` branch is unreachable here because a
successfully constructed state always carries one of the five known
identities (an unknown name already fails in the constructor). -/
def providerGenerate (env : Env) (st : AIProviderState) (prompt : String) (opts : GenOptions) :
    Except String GenResult :=
  match st.provider with
  | .gemini => generateGemini env st prompt opts
  | .groq => generateGroq env st prompt opts
  | .huggingface => generateHuggingFace env st prompt opts
  | .ollama => generateOllama env st prompt opts
  | .together => generateTogether env st prompt opts

/-- The loop body of `SmartAIProvider.generate`: try each provider in
order; on success return its result at once; on failure append
`<providerName>: <message>` to the accumulated error list and continue;
when the chain is exhausted raise the aggregate
`All providers failed:\n` + the entries joined by newlines. -/
def smartGenerateAux (env : Env) (prompt : String) (opts : GenOptions) :
    List AIProviderState → List String → Except String GenResult
  | [], errs => .error ("All providers failed:\n" ++ String.intercalate "\n" errs)
  | st :: rest, errs =>
    match providerGenerate env st prompt opts with
    | .ok r => .ok r
    | .error m =>
        smartGenerateAux env prompt opts rest (errs ++ [providerName st.provider ++ ": " ++ m])

/-- `SmartAIProvider.generate`: the loop started with an empty error
list. -/
def smartGenerate (env : Env) (chain : List AIProviderState) (prompt : String)
    (opts : GenOptions) : Except String GenResult :=
  smartGenerateAux env prompt opts chain []

/-- The sequence of providers the loop actually attempts, following
exactly the iteration of `smartGenerateAux`: every provider up to and
including the first success, or the whole chain when none succeeds. -/
def attemptLog (env : Env) (prompt : String) (opts : GenOptions) :
    List AIProviderState → List AIProviderState
  | [] => []
  | st :: rest =>
    match providerGenerate env st prompt opts with
    | .ok _ => [st]
    | .error _ => st :: attemptLog env prompt opts rest

/-- The default value of the `SmartAIProvider` constructor's
`preferredProviders` parameter: `[AI_PROVIDERS.GEMINI, AI_PROVIDERS.GROQ]`. -/
def defaultPreferredProviders : List String := ["gemini", "groq"]

/-- The `SmartAIProvider` constructor:
`preferredProviders.map(p => new AIProvider(p))`.  An `AIProvider`
constructor raising mid-map aborts the whole construction: the map is
evaluated left to right and stops at the first raised error. -/
def mkSmartAIProvider : List String → Except String (List AIProviderState)
  | [] => .ok []
  | n :: rest =>
    match mkAIProviderNoAlias n with
    | .error e => .error e
    | .ok st =>
      match mkSmartAIProvider rest with
      | .error e => .error e
      | .ok sts => .ok (st :: sts)

/-- Construction with no argument, i.e. with the default chain. -/
def mkSmartAIProviderNoArgs : Except String (List AIProviderState) :=
  mkSmartAIProvider defaultPreferredProviders

/-- The exported `generateText`: build a default-chain `SmartAIProvider`,
run `generate`, and return only the `text` field of the result. -/
def generateText (env : Env) (prompt : String) (opts : GenOptions) : Except String String :=
  match mkSmartAIProviderNoArgs with
  | .error e => .error e
  | .ok chain =>
    match smartGenerate env chain prompt opts with
    | .ok r => .ok r.text
    | .error e => .error e

/-- The temperature each adapter places in the request it issues, read
off the per-adapter request builders. -/
def issuedTemperature (st : AIProviderState) (prompt : String) (opts : GenOptions) : Rat :=
  match st.provider with
  | .gemini => (geminiRequestOf st prompt opts).temperature
  | .groq => (groqRequestOf st prompt opts).temperature
  | .huggingface => (hfRequestOf st prompt opts).temperature
  | .ollama => (ollamaRequestOf st prompt opts).temperature
  | .together => (togetherRequestOf st prompt opts).temperature

/-- The maximum-output-token cap each adapter places in the request it
issues; `none` for Ollama, whose request carries no cap field. -/
def issuedMaxTokens (st : AIProviderState) (prompt : String) (opts : GenOptions) : Option Nat :=
  match st.provider with
  | .gemini => some (geminiRequestOf st prompt opts).maxOutputTokens
  | .groq => some (groqRequestOf st prompt opts).max_tokens
  | .huggingface => some (hfRequestOf st prompt opts).max_new_tokens
  | .ollama => none
  | .together => some (togetherRequestOf st prompt opts).max_tokens

/-- Whether the environment carries the credential a provider's adapter
checks before calling out; Ollama performs no credential check. -/
def credentialed (env : Env) : ProviderId → Bool
  | .gemini => env.geminiClient
  | .groq => env.groqClient
  | .huggingface => env.hfKey
  | .ollama => true
  | .together => env.togetherKey

/-- The message an adapter raises when its credential is absent;
`none` for Ollama, which has no such failure mode. -/
def configErrorMsg : ProviderId → Option String
  | .gemini => some "GEMINI_API_KEY not set"
  | .groq => some "GROQ_API_KEY not set"
  | .huggingface => some "HUGGINGFACE_API_KEY not set"
  | .ollama => none
  | .together => some "TOGETHER_API_KEY not set"

/-- A provider state as produced by `createAI('gemini')`. -/
def geminiDefaultState : AIProviderState :=
  { provider := .gemini, model := "gemini-1.5-flash" }

/-- A provider state as produced by `createAI('groq')`. -/
def groqDefaultState : AIProviderState :=
  { provider := .groq, model := "llama-3.3-70b-versatile" }

/-- A provider state as produced by `createAI('huggingface')`. -/
def hfDefaultState : AIProviderState :=
  { provider := .huggingface, model := "mistralai/Mistral-7B-Instruct-v0.2" }

/-- A provider state as produced by `createAI('ollama')`. -/
def ollamaDefaultState : AIProviderState :=
  { provider := .ollama, model := "llama3.2" }

/-- The chain the default `SmartAIProvider` constructor produces. -/
def defaultChainStates : List AIProviderState :=
  [geminiDefaultState, groqDefaultState]

/-- A concrete world: Gemini unconfigured (no API key), Groq configured
and answering `Hello`, the remaining providers answering trivially. -/
def envA : Env :=
  { geminiClient := false
    groqClient := true
    hfKey := true
    togetherKey := true
    geminiRemote := fun _ => .error "unreachable"
    groqRemote := fun _ => .ok "Hello"
    hfRemote := fun _ => .ok "x"
    ollamaRemote := fun _ => .ok "x"
    togetherRemote := fun _ => .ok "x" }

/-- A concrete world in which every provider fails: HuggingFace gets an
HTTP 500 response and Groq's SDK call raises a JSON parse error. -/
def envAllFail : Env :=
  { geminiClient := true
    groqClient := true
    hfKey := true
    togetherKey := true
    geminiRemote := fun _ => .error "x"
    groqRemote := fun _ => .error "Could not parse JSON response"
    hfRemote := fun _ => .notOk 500 "Internal Server Error"
    ollamaRemote := fun _ => .thrown "x"
    togetherRemote := fun _ => .thrown "x" }

/-- A concrete world in which the HuggingFace endpoint echoes the prompt
followed by a completion, as the inference API does for text-generation
models. -/
def envEcho : Env :=
  { geminiClient := true
    groqClient := true
    hfKey := true
    togetherKey := true
    geminiRemote := fun _ => .ok "x"
    groqRemote := fun _ => .ok "x"
    hfRemote := fun req => .ok (req.inputs ++ " hello  ")
    ollamaRemote := fun _ => .ok "x"
    togetherRemote := fun _ => .ok "x" }

/-- The property names every plain object literal inherits from
`Object.prototype`: eleven function-valued members plus the `__proto__`
accessor.  A bracket read with one of these names on `MODELS` or on a
provider's sub-object yields the inherited member (truthy, not a string)
instead of `undefined`. -/
def objectProtoMember : String → Bool
  | "constructor" => true
  | "hasOwnProperty" => true
  | "isPrototypeOf" => true
  | "propertyIsEnumerable" => true
  | "toLocaleString" => true
  | "toString" => true
  | "valueOf" => true
  | "__proto__" => true
  | "__defineGetter__" => true
  | "__defineSetter__" => true
  | "__lookupGetter__" => true
  | "__lookupSetter__" => true
  | _ => false

/-- A JavaScript value as far as the constructor's model-resolution
expression can observe one: `undefined`, a string, or an inherited
`Object.prototype` member reached through the prototype chain (a
function, or for `__proto__` the prototype object itself — in either
case truthy and not a string), recorded with the property name it was
read under. -/
inductive JSValue where
  | undefinedVal
  | str (s : String)
  | protoFn (key : String)
deriving DecidableEq, Repr

/-- JavaScript truthiness of such a value: `undefined` is falsy, a string
is falsy exactly when empty, an inherited member is truthy. -/
def jsTruthy : JSValue → Bool
  | .undefinedVal => false
  | .str s => if s = "" then false else true
  | .protoFn _ => true

/-- JavaScript `x || y` on such values. -/
def jsOrVal (x y : JSValue) : JSValue :=
  if jsTruthy x then x else y

/-- The full bracket read `MODELS[provider][alias]` on a real provider's
sub-object: own alias keys first, then the inherited `Object.prototype`
members, and `undefined` for everything else. -/
def subObjectGet (p : ProviderId) (a : String) : JSValue :=
  match lookupModel p a with
  | some m => .str m
  | none => if objectProtoMember a then .protoFn a else .undefinedVal

/-- The full model-alias resolution
`MODELS[provider][model] || MODELS[provider].default` for a real
provider identity, prototype chain included: an alias such as `toString`
reaches the inherited truthy member, which the `||` keeps. -/
def resolveModelJS (p : ProviderId) (a : String) : JSValue :=
  jsOrVal (subObjectGet p a) (subObjectGet p "default")

/-- What the bracket read `MODELS[name]` yields: the sub-object of one of
the five own keys, an inherited `Object.prototype` member, or
`undefined`. -/
inductive ModelsEntry where
  | table (p : ProviderId)
  | protoMember (key : String)
  | missingEntry
deriving DecidableEq, Repr

/-- The full bracket read `MODELS[name]`, prototype chain included. -/
def modelsGet (name : String) : ModelsEntry :=
  match parseProvider name with
  | some p => .table p
  | none => if objectProtoMember name then .protoMember name else .missingEntry

/-- The raw state the `AIProvider` constructor stores: `this.provider` is
the provider-name string exactly as passed, and `this.model` is whatever
JavaScript value the resolution expression produced. -/
structure AIProviderJSState where
  providerTag : String
  model : JSValue
deriving DecidableEq, Repr

/-- The `AIProvider` constructor over an arbitrary provider-name string
with the alias argument left at its default `'default'` — the exact call
`new AIProvider(p)` the `SmartAIProvider` constructor makes — with the
bracket reads modelled in full.  For one of the five own keys the model
resolves from the table; for an inherited `Object.prototype` member name
`MODELS[name]` is the inherited member, reading `default` on it yields
`undefined` on both sides of the `||` (no such member has a `default`
property), and construction SUCCEEDS with an `undefined` model; only for
every other name is `MODELS[name]` `undefined` and the property read on
it raises a `TypeError` (message text not modelled). -/
def mkAIProviderJS (name : String) : Except String AIProviderJSState :=
  match modelsGet name with
  | .table p =>
    .ok { providerTag := name
          model := jsOrVal (subObjectGet p "default") (subObjectGet p "default") }
  | .protoMember _ =>
    .ok { providerTag := name, model := jsOrVal .undefinedVal .undefinedVal }
  | .missingEntry => .error ("TypeError: MODELS has no entry for provider " ++ name)

/-- The `SmartAIProvider` constructor over the full JS construction:
`preferredProviders.map(p => new AIProvider(p))`, evaluated left to
right, aborted by the first raised error. -/
def mkSmartAIProviderJS : List String → Except String (List AIProviderJSState)
  | [] => .ok []
  | n :: rest =>
    match mkAIProviderJS n with
    | .error e => .error e
    | .ok st =>
      match mkSmartAIProviderJS rest with
      | .error e => .error e
      | .ok sts => .ok (st :: sts)

/-- How `this.model` reads as a string where the adapters interpolate it
into a URL or request body: a string is itself, `undefined` interpolates
as the text `undefined`, an inherited function member as its
`function ... () \x7b [native code] \x7d` source text.  The latter two
are never produced for a dispatchable provider tag by the constructor,
which always resolves a real provider's model to a table string. -/
def jsValInterp : JSValue → String
  | .str s => s
  | .undefinedVal => "undefined"
  | .protoFn k => "function " ++ k ++ "() \x7b [native code] \x7d"

/-- `AIProvider.generate` over the raw constructed state: the switch
compares `this.provider` against the five identity strings; a tag
matching one of them runs that adapter on the stored model; a tag
matching none reaches the `default` branch, which raises
`Unknown provider: <tag>` — inside an ordinary attempt, so a chain loop
catches it like any other failure. -/
def providerGenerateJS (env : Env) (st : AIProviderJSState) (prompt : String)
    (opts : GenOptions) : Except String GenResult :=
  match parseProvider st.providerTag with
  | some p =>
    providerGenerate env { provider := p, model := jsValInterp st.model } prompt opts
  | none => .error ("Unknown provider: " ++ st.providerTag)

/-- The `SmartAIProvider.generate` loop over raw constructed states, with
the same accumulation and aggregate failure as `smartGenerateAux`; the
per-entry prefix is the raw `this.provider` tag. -/
def smartGenerateJSAux (env : Env) (prompt : String) (opts : GenOptions) :
    List AIProviderJSState → List String → Except String GenResult
  | [], errs => .error ("All providers failed:\n" ++ String.intercalate "\n" errs)
  | st :: rest, errs =>
    match providerGenerateJS env st prompt opts with
    | .ok r => .ok r
    | .error m =>
        smartGenerateJSAux env prompt opts rest (errs ++ [st.providerTag ++ ": " ++ m])

/-- `SmartAIProvider.generate` over raw constructed states. -/
def smartGenerateJS (env : Env) (chain : List AIProviderJSState) (prompt : String)
    (opts : GenOptions) : Except String GenResult :=
  smartGenerateJSAux env prompt opts chain []

/-- A successful attempt always tags the result with the attempted
provider's own identity and resolved model. -/
theorem providerGenerate_ok_provider (env : Env) (st : AIProviderState) (prompt : String)
    (opts : GenOptions) (r : GenResult) (h : providerGenerate env st prompt opts = .ok r) :
    r.provider = st.provider ∧ r.model = st.model := by
  obtain ⟨p, mdl⟩ := st
  cases p <;>
    simp only [providerGenerate, generateGemini, generateGroq, generateHuggingFace,
      generateOllama, generateTogether] at h <;>
    (repeat' split at h) <;>
    first
      | (injection h with h'; subst h'; exact ⟨rfl, rfl⟩)
      | injection h

/-- The success value of the chain loop does not depend on the error
accumulator. -/
theorem smartGenerateAux_ok_any (env : Env) (prompt : String) (opts : GenOptions) :
    ∀ (chain : List AIProviderState) (errs errs' : List String) (r : GenResult),
    smartGenerateAux env prompt opts chain errs = .ok r →
    smartGenerateAux env prompt opts chain errs' = .ok r := by
  intro chain
  induction chain with
  | nil => intro errs errs' r h; simp [smartGenerateAux] at h
  | cons st rest ih =>
    intro errs errs' r h
    simp only [smartGenerateAux] at h ⊢
    cases hg : providerGenerate env st prompt opts with
    | ok r' => rw [hg] at h; exact h
    | error m => rw [hg] at h; exact ih _ _ _ h

/-- Running the loop on a block of providers that all fail, followed by a
provider that succeeds, yields that provider's result regardless of the
accumulator and of anything after it in the chain. -/
theorem smartGenerateAux_ok_of_first_success (env : Env) (prompt : String) (opts : GenOptions)
    (st : AIProviderState) (r : GenResult) (post : List AIProviderState)
    (hsucc : providerGenerate env st prompt opts = .ok r) :
    ∀ (pre : List AIProviderState) (errs : List String),
    (∀ p ∈ pre, ∃ m, providerGenerate env p prompt opts = .error m) →
    smartGenerateAux env prompt opts (pre ++ st :: post) errs = .ok r := by
  intro pre
  induction pre with
  | nil =>
    intro errs _
    simp only [List.nil_append, smartGenerateAux]
    rw [hsucc]
  | cons q qs ih =>
    intro errs hfail
    obtain ⟨m, hm⟩ := hfail q (List.mem_cons_self q qs)
    simp only [List.cons_append, smartGenerateAux]
    rw [hm]
    exact ih _ (fun p hp => hfail p (List.mem_cons_of_mem q hp))

/-- The attempt trace over a failing block followed by a success stops
exactly at the succeeding provider. -/
theorem attemptLog_of_first_success (env : Env) (prompt : String) (opts : GenOptions)
    (st : AIProviderState) (r : GenResult) (post : List AIProviderState)
    (hsucc : providerGenerate env st prompt opts = .ok r) :
    ∀ pre : List AIProviderState,
    (∀ p ∈ pre, ∃ m, providerGenerate env p prompt opts = .error m) →
    attemptLog env prompt opts (pre ++ st :: post) = pre ++ [st] := by
  intro pre
  induction pre with
  | nil =>
    intro _
    simp only [List.nil_append, attemptLog]
    rw [hsucc]
  | cons q qs ih =>
    intro hfail
    obtain ⟨m, hm⟩ := hfail q (List.mem_cons_self q qs)
    have ih' := ih (fun p hp => hfail p (List.mem_cons_of_mem q hp))
    simp only [List.cons_append, attemptLog, hm, List.append_eq]
    rw [ih']

/-- When every provider of the chain fails with the matching message, the
loop raises the aggregate error: the accumulated entries followed by one
`<providerName>: <message>` entry per provider, in chain order. -/
theorem smartGenerateAux_all_fail (env : Env) (prompt : String) (opts : GenOptions) :
    ∀ (chain : List AIProviderState) (msgs errs : List String),
    List.Forall₂ (fun st m => providerGenerate env st prompt opts = .error m) chain msgs →
    smartGenerateAux env prompt opts chain errs =
      .error ("All providers failed:\n" ++ String.intercalate "\n"
        (errs ++ List.zipWith (fun st m => providerName st.provider ++ ": " ++ m) chain msgs)) := by
  intro chain
  induction chain with
  | nil =>
    intro msgs errs h
    cases h
    simp [smartGenerateAux]
  | cons st rest ih =>
    intro msgs errs h
    cases h with
    | cons hm htail =>
      simp only [smartGenerateAux, hm]
      rw [ih _ _ htail]
      simp [List.append_assoc]

/-- The attempt trace is always an initial segment of the configured
chain. -/
theorem attemptLog_append_eq (env : Env) (prompt : String) (opts : GenOptions) :
    ∀ chain : List AIProviderState,
    ∃ t, attemptLog env prompt opts chain ++ t = chain := by
  intro chain
  induction chain with
  | nil => exact ⟨[], rfl⟩
  | cons st rest ih =>
    simp only [attemptLog]
    cases hg : providerGenerate env st prompt opts with
    | ok r => exact ⟨rest, rfl⟩
    | error m =>
      obtain ⟨t, ht⟩ := ih
      exact ⟨t, by simp [ht]⟩

/-- Deleting the first occurrence of `p` from `p ++ c` leaves `c`
(character-list version). -/
theorem replaceFirst_append (p c : List Char) : replaceFirst p (p ++ c) = c := by
  cases p with
  | nil =>
    cases c with
    | nil => rfl
    | cons x xs => simp [replaceFirst, isPre]
  | cons a as =>
    have hpre : isPre (a :: as) ((a :: as) ++ c) = true := by
      clear * -
      induction as generalizing a with
      | nil => cases c <;> simp [isPre]
      | cons b bs ih => simpa [isPre] using ih b
    show replaceFirst (a :: as) (a :: (as ++ c)) = c
    rw [replaceFirst, if_pos (by simpa using hpre)]
    exact List.drop_left (a :: as) c

/-- Deleting the first occurrence of `p` from `p ++ c` leaves `c`
(string version). -/
theorem replaceFirstStr_append (p c : String) : replaceFirstStr p (p ++ c) = c := by
  have hd : (p ++ c).data = p.data ++ c.data := String.data_append p c
  have : replaceFirstStr p (p ++ c) = String.mk (replaceFirst p.data (p.data ++ c.data)) := by
    rw [replaceFirstStr, hd]
  rw [this, replaceFirst_append]

/-- C1: for every chain in which a (possibly empty) block of providers all
fail and the next provider succeeds, `generate` returns that provider's
result, the attempt trace is exactly the failing block followed by the
succeeding provider (so exactly K+1 attempts are made and no provider
after position K+1 is invoked), and the returned result carries the
succeeding provider's identity — in particular, for a one-element chain
that succeeds, the result's provider identity is that configured
provider. -/
theorem generate_first_success_wins (env : Env) (prompt : String) (opts : GenOptions)
    (pre post : List AIProviderState) (st : AIProviderState) (r : GenResult)
    (hfail : ∀ p ∈ pre, ∃ m, providerGenerate env p prompt opts = .error m)
    (hsucc : providerGenerate env st prompt opts = .ok r) :
    smartGenerate env (pre ++ st :: post) prompt opts = .ok r ∧
    attemptLog env prompt opts (pre ++ st :: post) = pre ++ [st] ∧
    (attemptLog env prompt opts (pre ++ st :: post)).length = pre.length + 1 ∧
    r.provider = st.provider := by
  have hlog := attemptLog_of_first_success env prompt opts st r post hsucc pre hfail
  refine ⟨smartGenerateAux_ok_of_first_success env prompt opts st r post hsucc pre [] hfail,
    hlog, ?_, (providerGenerate_ok_provider env st prompt opts r hsucc).1⟩
  rw [hlog]
  simp

/-- Witness for C1: in `envA`, Gemini is unconfigured and Groq answers
`Hello`, so the chain `[gemini, groq]` returns Groq's result after
exactly two attempts. -/
theorem generate_first_success_wins_witness :
    smartGenerate envA ([geminiDefaultState] ++ groqDefaultState :: []) "hi" emptyOptions =
      .ok { text := "Hello", provider := .groq, model := "llama-3.3-70b-versatile" } ∧
    attemptLog envA "hi" emptyOptions ([geminiDefaultState] ++ groqDefaultState :: []) =
      [geminiDefaultState] ++ [groqDefaultState] ∧
    (attemptLog envA "hi" emptyOptions ([geminiDefaultState] ++ groqDefaultState :: [])).length =
      [geminiDefaultState].length + 1 ∧
    GenResult.provider { text := "Hello", provider := .groq, model := "llama-3.3-70b-versatile" } =
      groqDefaultState.provider :=
  generate_first_success_wins envA "hi" emptyOptions [geminiDefaultState] [] groqDefaultState
    { text := "Hello", provider := .groq, model := "llama-3.3-70b-versatile" }
    (by
      intro p hp
      rw [List.mem_singleton] at hp
      subst hp
      exact ⟨"GEMINI_API_KEY not set", rfl⟩)
    rfl

/-- C2 (amended): when every provider of the chain fails, `generate`
raises an error whose message is the fixed header `All providers failed:`
followed by a newline and the newline-joined `<providerName>: <message>`
entries, one per provider, in the original chain order, where each
message is the failure message of that provider's attempt (which carries
the adapter's own wrapping, e.g. `Gemini error: ...`). -/
theorem generate_all_fail_aggregate (env : Env) (prompt : String) (opts : GenOptions)
    (chain : List AIProviderState) (msgs : List String)
    (h : List.Forall₂ (fun st m => providerGenerate env st prompt opts = .error m) chain msgs) :
    smartGenerate env chain prompt opts =
      .error ("All providers failed:\n" ++ String.intercalate "\n"
        (List.zipWith (fun st m => providerName st.provider ++ ": " ++ m) chain msgs)) := by
  have := smartGenerateAux_all_fail env prompt opts chain msgs [] h
  simpa [smartGenerate] using this

/-- Witness for C2: in `envAllFail`, the chain `[huggingface, groq]`
fails with the aggregate header plus both wrapped entries in order. -/
theorem generate_all_fail_aggregate_witness :
    smartGenerate envAllFail [hfDefaultState, groqDefaultState] "p" emptyOptions =
      .error ("All providers failed:\n" ++ String.intercalate "\n"
        (List.zipWith (fun st m => providerName st.provider ++ ": " ++ m)
          [hfDefaultState, groqDefaultState]
          ["HuggingFace error: HTTP 500: Internal Server Error",
           "Groq error: Could not parse JSON response"])) :=
  generate_all_fail_aggregate envAllFail "p" emptyOptions [hfDefaultState, groqDefaultState]
    ["HuggingFace error: HTTP 500: Internal Server Error",
     "Groq error: Could not parse JSON response"]
    (List.Forall₂.cons rfl (List.Forall₂.cons rfl List.Forall₂.nil))

/-- Counterexample for C2: for the chain `[huggingface, groq]` where the
first provider gets an HTTP 500 and the second a JSON parse failure, the
raised message is NOT the bare two-line `<name>: <raw cause>` join the
claim's example predicts: it carries the `All providers failed:` header
and the adapters' own message wrapping. -/
theorem generate_all_fail_exact_message_counterexample :
    smartGenerate envAllFail [hfDefaultState, groqDefaultState] "p" emptyOptions =
      .error ("All providers failed:\nhuggingface: HuggingFace error: HTTP 500: Internal Server Error\ngroq: Groq error: Could not parse JSON response") ∧
    smartGenerate envAllFail [hfDefaultState, groqDefaultState] "p" emptyOptions ≠
      .error "huggingface: HTTP 500\ngroq: Could not parse JSON response" := by
  refine ⟨rfl, ?_⟩
  intro h
  have h1 : ("All providers failed:\nhuggingface: HuggingFace error: HTTP 500: Internal Server Error\ngroq: Groq error: Could not parse JSON response" : String) =
      "huggingface: HTTP 500\ngroq: Could not parse JSON response" :=
    Except.error.inj ((rfl : smartGenerate envAllFail [hfDefaultState, groqDefaultState] "p" emptyOptions =
      .error ("All providers failed:\nhuggingface: HuggingFace error: HTTP 500: Internal Server Error\ngroq: Groq error: Could not parse JSON response")).symm.trans h)
  exact absurd h1 (by decide)

/-- C5: on every call, the sequence of providers actually attempted is an
initial segment of the configured chain — the chain order is followed
exactly, and no provider is attempted more often than it occurs in the
chain (hence at most once per call for a duplicate-free chain).  The
gateway is a pure function of its constructed chain, so nothing about a
call can reorder the chain for later calls. -/
theorem chain_order_invariant (env : Env) (prompt : String) (opts : GenOptions)
    (chain : List AIProviderState) :
    (∃ t, attemptLog env prompt opts chain ++ t = chain) ∧
    ∀ st : AIProviderState,
      (attemptLog env prompt opts chain).count st ≤ chain.count st := by
  obtain ⟨t, ht⟩ := attemptLog_append_eq env prompt opts chain
  refine ⟨⟨t, ht⟩, ?_⟩
  intro st
  have hc : List.count st chain =
      List.count st (attemptLog env prompt opts chain) + List.count st t := by
    conv_lhs => rw [← ht, List.count_append]
  rw [hc]
  exact Nat.le_add_right _ _

/-- Counterexample for C3: with both options omitted, the HuggingFace
adapter's request carries a token cap of 500, not 1024, and the Ollama
adapter's request carries no token cap at all. -/
theorem default_cap_counterexample :
    issuedMaxTokens hfDefaultState "p" emptyOptions = some 500 ∧
    issuedMaxTokens hfDefaultState "p" emptyOptions ≠ some 1024 ∧
    issuedMaxTokens ollamaDefaultState "p" emptyOptions = none := by
  refine ⟨rfl, ?_, rfl⟩
  intro h
  rw [(rfl : issuedMaxTokens hfDefaultState "p" emptyOptions = some 500)] at h
  exact absurd (Option.some.inj h) (by decide)

/-- C3 (amended): with an options bag omitting temperature and maxTokens,
every adapter's request carries temperature 0.7; the Gemini, Groq and
Together requests carry a token cap of 1024, the HuggingFace request
carries 500, and the Ollama request carries no token cap. -/
theorem default_options_per_adapter (st : AIProviderState) (prompt : String)
    (opts : GenOptions) (ht : opts.temperature = none) (hk : opts.maxTokens = none) :
    issuedTemperature st prompt opts = defaultTemperature ∧
    issuedMaxTokens st prompt opts =
      (match st.provider with
       | .huggingface => some 500
       | .ollama => none
       | _ => some 1024) := by
  obtain ⟨p, mdl⟩ := st
  cases p <;>
    simp [issuedTemperature, issuedMaxTokens, geminiRequestOf, groqRequestOf, hfRequestOf,
      ollamaRequestOf, togetherRequestOf, jsOrRat, jsOrNat, ht, hk]

/-- Witness for C3 (amended), at the HuggingFace and Ollama adapters with
the empty options bag. -/
theorem default_options_per_adapter_witness :
    (issuedTemperature hfDefaultState "p" emptyOptions = defaultTemperature ∧
      issuedMaxTokens hfDefaultState "p" emptyOptions = some 500) ∧
    (issuedTemperature ollamaDefaultState "p" emptyOptions = defaultTemperature ∧
      issuedMaxTokens ollamaDefaultState "p" emptyOptions = none) :=
  ⟨default_options_per_adapter hfDefaultState "p" emptyOptions rfl rfl,
   default_options_per_adapter ollamaDefaultState "p" emptyOptions rfl rfl⟩

/-- Counterexample for C4: the boundary values temperature 0 and
maxTokens 0 are NOT passed verbatim — `options.temperature || 0.7` and
`options.maxTokens || 1024` treat 0 as falsy, so the Gemini request
carries the defaults instead. -/
theorem verbatim_zero_counterexample :
    issuedTemperature geminiDefaultState "p"
      { temperature := some 0, maxTokens := some 0 } = defaultTemperature ∧
    issuedTemperature geminiDefaultState "p"
      { temperature := some 0, maxTokens := some 0 } ≠ 0 ∧
    issuedMaxTokens geminiDefaultState "p"
      { temperature := some 0, maxTokens := some 0 } = some 1024 := by
  refine ⟨rfl, ?_, rfl⟩
  intro h
  have h2 : defaultTemperature = (0 : Rat) := h
  norm_num [defaultTemperature] at h2

/-- C4 (amended): a supplied NONZERO temperature is placed verbatim in
every adapter's request, and a supplied NONZERO maxTokens is placed
verbatim in the Gemini, Groq, HuggingFace and Together requests, while
the Ollama request never carries a token cap; a supplied zero is replaced
by the default because the source uses JavaScript `||` on it. -/
theorem verbatim_nonzero_options (st : AIProviderState) (prompt : String)
    (opts : GenOptions) (t : Rat) (k : Nat)
    (ht : opts.temperature = some t) (ht0 : t ≠ 0)
    (hk : opts.maxTokens = some k) (hk0 : k ≠ 0) :
    issuedTemperature st prompt opts = t ∧
    issuedMaxTokens st prompt opts =
      (if st.provider = .ollama then none else some k) := by
  obtain ⟨p, mdl⟩ := st
  cases p <;>
    simp [issuedTemperature, issuedMaxTokens, geminiRequestOf, groqRequestOf, hfRequestOf,
      ollamaRequestOf, togetherRequestOf, jsOrRat, jsOrNat, ht, hk, ht0, hk0]

/-- Witness for C4 (amended): temperature 1/2 and maxTokens 16 reach the
Groq request unchanged. -/
theorem verbatim_nonzero_options_witness :
    issuedTemperature groqDefaultState "p"
      { temperature := some ((1 : Rat) / 2), maxTokens := some 16 } = (1 : Rat) / 2 ∧
    issuedMaxTokens groqDefaultState "p"
      { temperature := some ((1 : Rat) / 2), maxTokens := some 16 } =
      (if groqDefaultState.provider = .ollama then none else some 16) :=
  verbatim_nonzero_options groqDefaultState "p"
    { temperature := some ((1 : Rat) / 2), maxTokens := some 16 } ((1 : Rat) / 2) 16
    rfl (by norm_num) rfl (by decide)

/-- C7: a provider whose credential is absent fails its attempt with the
`not set` configuration message, and the chain falls through to the next
provider exactly as for a remote failure: when the rest of the chain
succeeds with result `r`, the whole call returns `r` and the recorded
configuration error is not surfaced. -/
theorem config_error_fallthrough (env : Env) (prompt : String) (opts : GenOptions)
    (p : ProviderId) (mdl m : String) (rest : List AIProviderState) (r : GenResult)
    (hcred : credentialed env p = false)
    (hmsg : configErrorMsg p = some m)
    (hrest : smartGenerate env rest prompt opts = .ok r) :
    providerGenerate env { provider := p, model := mdl } prompt opts = .error m ∧
    smartGenerate env ({ provider := p, model := mdl } :: rest) prompt opts = .ok r := by
  have hfail : providerGenerate env { provider := p, model := mdl } prompt opts = .error m := by
    cases p <;>
      simp_all [providerGenerate, generateGemini, generateGroq, generateHuggingFace,
        generateOllama, generateTogether, credentialed, configErrorMsg]
  refine ⟨hfail, ?_⟩
  show smartGenerateAux env prompt opts _ [] = .ok r
  simp only [smartGenerateAux, hfail]
  exact smartGenerateAux_ok_any env prompt opts rest [] _ r hrest

/-- C8: when the HuggingFace endpoint returns the prompt concatenated
with a completion, the adapter's normalization deletes the echoed prompt
prefix and trims, so the result text is exactly the whitespace-trimmed
completion. -/
theorem hf_strips_prompt_echo (env : Env) (st : AIProviderState)
    (prompt completion : String) (opts : GenOptions)
    (hkey : env.hfKey = true)
    (hresp : env.hfRemote (hfRequestOf st prompt opts) = .ok (prompt ++ completion)) :
    generateHuggingFace env st prompt opts =
      .ok { text := trimString completion, provider := .huggingface, model := st.model } := by
  simp only [generateHuggingFace, hkey, hresp, replaceFirstStr_append]
  simp

/-- Witness for C8: in `envEcho` the endpoint answers
`Say hi` ++ ` hello  `, and the adapter returns exactly `hello`. -/
theorem hf_strips_prompt_echo_witness :
    generateHuggingFace envEcho hfDefaultState "Say hi" emptyOptions =
      .ok { text := trimString " hello  ", provider := .huggingface,
            model := hfDefaultState.model } ∧
    trimString " hello  " = "hello" :=
  ⟨hf_strips_prompt_echo envEcho hfDefaultState "Say hi" " hello  " emptyOptions rfl rfl,
   rfl⟩

/-- C10: the `SmartAIProvider` constructor called with no argument
produces exactly the two-element chain `[gemini, groq]` in that order
(with each provider's default model), and `generateText` is the
default-chain `generate` with the result projected to its `text` field,
discarding the provider identity and model name on success. -/
theorem default_chain_and_text_only (env : Env) (prompt : String) (opts : GenOptions) :
    mkSmartAIProviderNoArgs = .ok defaultChainStates ∧
    defaultChainStates =
      [{ provider := .gemini, model := "gemini-1.5-flash" },
       { provider := .groq, model := "llama-3.3-70b-versatile" }] ∧
    generateText env prompt opts =
      (match smartGenerate env defaultChainStates prompt opts with
       | .ok r => .ok r.text
       | .error e => .error e) := by
  exact ⟨rfl, rfl, rfl⟩

/-- Witness for C7: in `envA` Gemini has no credential and Groq (with
model `m1`) succeeds with `Hello`, so the chain returns Groq's result and
Gemini's configuration error is not surfaced. -/
theorem config_error_fallthrough_witness :
    providerGenerate envA { provider := .gemini, model := "gemini-1.5-flash" } "hi"
      emptyOptions = .error "GEMINI_API_KEY not set" ∧
    smartGenerate envA
      ({ provider := .gemini, model := "gemini-1.5-flash" } ::
        [{ provider := .groq, model := "m1" }]) "hi" emptyOptions =
      .ok { text := "Hello", provider := .groq, model := "m1" } :=
  config_error_fallthrough envA "hi" emptyOptions .gemini "gemini-1.5-flash"
    "GEMINI_API_KEY not set" [{ provider := .groq, model := "m1" }]
    { text := "Hello", provider := .groq, model := "m1" } rfl rfl rfl

/-- The `default` entry read on a provider's sub-object. -/
theorem subObjectGet_default (p : ProviderId) :
    subObjectGet p "default" = .str (defaultModel p) := by
  cases p <;> rfl

/-- Every value of the alias table is a non-empty (hence truthy)
string. -/
theorem lookupModel_ne_empty (p : ProviderId) (a m : String)
    (h : lookupModel p a = some m) : m ≠ "" := by
  cases p <;> simp only [lookupModel] at h <;> (repeat' split at h) <;>
    (try (cases h)) <;> decide

/-- A provider name accepted by the own-key parse is exactly that
provider's tag string. -/
theorem parseProvider_name (name : String) (p : ProviderId)
    (h : parseProvider name = some p) : providerName p = name := by
  simp only [parseProvider] at h
  repeat' split at h
  all_goals (try (cases h))
  all_goals simp_all [providerName]

/-- On names that are no inherited `Object.prototype` members, the full
JS constructor agrees with the own-key constructor: both raise for an
unknown name, and both store the same tag and default (string) model
otherwise. -/
theorem mkAIProviderJS_agrees (name : String) (h : objectProtoMember name = false) :
    mkAIProviderJS name =
      Except.map
        (fun st => { providerTag := providerName st.provider, model := JSValue.str st.model })
        (mkAIProviderNoAlias name) := by
  simp only [mkAIProviderJS, modelsGet, mkAIProviderNoAlias, mkAIProvider]
  cases hp : parseProvider name with
  | none => simp [h, Except.map]
  | some p =>
    have hn : providerName p = name := parseProvider_name name p hp
    subst hn
    cases p <;> rfl

/-- The success value of the raw-state loop does not depend on the error
accumulator. -/
theorem smartGenerateJSAux_ok_any (env : Env) (prompt : String) (opts : GenOptions) :
    ∀ (chain : List AIProviderJSState) (errs errs' : List String) (r : GenResult),
    smartGenerateJSAux env prompt opts chain errs = .ok r →
    smartGenerateJSAux env prompt opts chain errs' = .ok r := by
  intro chain
  induction chain with
  | nil => intro errs errs' r h; simp [smartGenerateJSAux] at h
  | cons st rest ih =>
    intro errs errs' r h
    simp only [smartGenerateJSAux] at h ⊢
    cases hg : providerGenerateJS env st prompt opts with
    | ok r' => rw [hg] at h; exact h
    | error m => rw [hg] at h; exact ih _ _ _ h

/-- Counterexample for C6: the alias `toString` is not a key of Gemini's
alias table, yet resolution does NOT fall back to the default model: the
bracket read reaches the inherited truthy `Object.prototype.toString`,
which the `||` keeps, so `this.model` becomes that function rather than
the default model name. -/
theorem model_resolution_proto_counterexample :
    lookupModel .gemini "toString" = none ∧
    resolveModelJS .gemini "toString" = .protoFn "toString" ∧
    resolveModelJS .gemini "toString" ≠ .str (defaultModel .gemini) := by
  decide

/-- C6 (amended): alias resolution never raises, and for every supported
provider identity: a known alias resolves to its statically mapped model
name; the absent-alias construction uses the `default` alias and yields
the default model; an unknown alias that is no inherited
`Object.prototype` property name falls back to the provider's `default`
model; but an unknown alias that names such an inherited member (e.g.
`toString`) resolves to that inherited truthy non-string member instead
of falling back. -/
theorem model_resolution_fallbackJS (p : ProviderId) (a : String) :
    (lookupModel p a = none → objectProtoMember a = false →
      resolveModelJS p a = .str (defaultModel p)) ∧
    (∀ m, lookupModel p a = some m → resolveModelJS p a = .str m) ∧
    resolveModelJS p "default" = .str (defaultModel p) ∧
    (lookupModel p a = none → objectProtoMember a = true →
      resolveModelJS p a = .protoFn a) ∧
    mkAIProviderJS (providerName p) =
      .ok { providerTag := providerName p, model := .str (defaultModel p) } := by
  refine ⟨?_, ?_, ?_, ?_, ?_⟩
  · intro h1 h2
    rw [resolveModelJS]
    rw [show subObjectGet p a = .undefinedVal from by simp [subObjectGet, h1, h2]]
    rw [subObjectGet_default p]
    rfl
  · intro m hm
    have hne : m ≠ "" := lookupModel_ne_empty p a m hm
    rw [resolveModelJS]
    rw [show subObjectGet p a = .str m from by simp [subObjectGet, hm]]
    simp [jsOrVal, jsTruthy, hne]
  · cases p <;> rfl
  · intro h1 h2
    rw [resolveModelJS]
    rw [show subObjectGet p a = .protoFn a from by simp [subObjectGet, h1, h2]]
    rfl
  · cases p <;> rfl

/-- Witness for C6: the alias `turbo` (no table key, no inherited
member) falls back to Gemini's default model, `fast` maps statically for
Groq, and `toString` resolves to the inherited member instead of the
default. -/
theorem model_resolution_fallbackJS_witness :
    resolveModelJS .gemini "turbo" = .str "gemini-1.5-flash" ∧
    resolveModelJS .groq "fast" = .str "llama-3.1-8b-instant" ∧
    resolveModelJS .gemini "toString" = .protoFn "toString" :=
  ⟨(model_resolution_fallbackJS .gemini "turbo").1 rfl rfl,
   (model_resolution_fallbackJS .groq "fast").2.1 "llama-3.1-8b-instant" rfl,
   (model_resolution_fallbackJS .gemini "toString").2.2.2.1 rfl rfl⟩

/-- Counterexample for C9: `toString` lies outside the five known
identities, yet constructing the chain `['toString', 'groq']` SUCCEEDS —
`MODELS['toString']` is the inherited `Object.prototype.toString`, so
the constructor's property reads raise nothing and `this.model` is
`undefined` — and a generate call on that chain handles the unknown name
by the ordinary per-provider fallthrough: its `Unknown provider` failure
is recorded and Groq's result is returned. -/
theorem unknown_provider_proto_counterexample :
    parseProvider "toString" = none ∧
    mkSmartAIProviderJS ["toString", "groq"] =
      .ok [{ providerTag := "toString", model := .undefinedVal },
           { providerTag := "groq", model := .str "llama-3.3-70b-versatile" }] ∧
    smartGenerateJS envA
      [{ providerTag := "toString", model := .undefinedVal },
       { providerTag := "groq", model := .str "llama-3.3-70b-versatile" }] "hi" emptyOptions =
      .ok { text := "Hello", provider := .groq, model := "llama-3.3-70b-versatile" } :=
  ⟨rfl, rfl, rfl⟩

/-- C9 (amended): for a provider name outside the five known identities
there are two regimes.  If the name is no inherited `Object.prototype`
property name, `MODELS[name]` is `undefined`, and constructing any chain
containing the name raises during construction, before any generate
call.  If the name IS such an inherited property name (e.g. `toString`),
construction succeeds with an `undefined` model, and the name is handled
by the per-provider fallthrough logic after all: its attempt raises
`Unknown provider: <name>`, which the chain loop records before
proceeding, so a succeeding rest of the chain still returns its
result. -/
theorem unknown_provider_construction_behavior (name : String)
    (hname : parseProvider name = none) :
    (objectProtoMember name = false →
      ∀ pre post : List String, ∃ e, mkSmartAIProviderJS (pre ++ name :: post) = .error e) ∧
    (objectProtoMember name = true →
      mkAIProviderJS name = .ok { providerTag := name, model := .undefinedVal } ∧
      (∀ env prompt opts,
        providerGenerateJS env { providerTag := name, model := .undefinedVal } prompt opts =
          .error ("Unknown provider: " ++ name)) ∧
      ∀ env prompt opts (rest : List AIProviderJSState) (r : GenResult),
        smartGenerateJS env rest prompt opts = .ok r →
        smartGenerateJS env ({ providerTag := name, model := .undefinedVal } :: rest) prompt opts =
          .ok r) := by
  constructor
  · intro hproto pre post
    induction pre with
    | nil =>
      refine ⟨"TypeError: MODELS has no entry for provider " ++ name, ?_⟩
      simp [mkSmartAIProviderJS, mkAIProviderJS, modelsGet, hname, hproto]
    | cons q qs ih =>
      obtain ⟨e, he⟩ := ih
      simp only [List.cons_append, mkSmartAIProviderJS]
      cases hq : mkAIProviderJS q with
      | error e' => exact ⟨e', rfl⟩
      | ok st =>
        simp only [List.append_eq]
        rw [he]
        exact ⟨e, rfl⟩
  · intro hproto
    have hctor : mkAIProviderJS name = .ok { providerTag := name, model := .undefinedVal } := by
      simp [mkAIProviderJS, modelsGet, hname, hproto, jsOrVal, jsTruthy]
    have hgen : ∀ env prompt opts,
        providerGenerateJS env { providerTag := name, model := .undefinedVal } prompt opts =
          .error ("Unknown provider: " ++ name) := by
      intro env prompt opts
      simp [providerGenerateJS, hname]
    refine ⟨hctor, hgen, ?_⟩
    intro env prompt opts rest r hrest
    show smartGenerateJSAux env prompt opts _ [] = .ok r
    simp only [smartGenerateJSAux, hgen env prompt opts]
    exact smartGenerateJSAux_ok_any env prompt opts rest [] _ r hrest

/-- Witness for C9: the chain `['gemini', 'openai']` cannot be
constructed (no inherited member is named `openai`), while the name
`toString` constructs successfully and fails only at generate time with
the `Unknown provider` message, inside the ordinary attempt. -/
theorem unknown_provider_construction_behavior_witness :
    (∃ e, mkSmartAIProviderJS (["gemini"] ++ "openai" :: []) = .error e) ∧
    mkAIProviderJS "toString" = .ok { providerTag := "toString", model := .undefinedVal } ∧
    providerGenerateJS envA { providerTag := "toString", model := .undefinedVal } "hi" emptyOptions =
      .error ("Unknown provider: " ++ "toString") :=
  ⟨(unknown_provider_construction_behavior "openai" rfl).1 rfl ["gemini"] [],
   ((unknown_provider_construction_behavior "toString" rfl).2 rfl).1,
   ((unknown_provider_construction_behavior "toString" rfl).2 rfl).2.1 envA "hi" emptyOptions⟩
